import Mathlib

/-
Shallow embedding of the mqtt-nextjs repository: the MQTT client shim
(src/lib/mqtt.ts), the display pages (src/unnamed/part_000 and
src/unnamed/part_001), and the remote pages (src/pages/remote.tsx and
src/unnamed/part_002), together with theorems checking the specification
claims against these definitions.
-/

namespace MqttNextjs

/-- A JavaScript runtime value, as far as the pages manipulate them:
undefined, null, booleans, numbers (only integers appear in this code),
strings, arrays and plain objects. -/
inductive JsVal where
  | undefined
  | null
  | bool (b : Bool)
  | num (n : Int)
  | str (s : String)
  | arr (elems : List JsVal)
  | obj (fields : List (String × JsVal))

/-- JavaScript truthiness: undefined, null, false, 0 and the empty string
are falsy; every array and object is truthy. -/
def truthy : JsVal → Bool
  | .undefined => false
  | .null => false
  | .bool b => b
  | .num n => n != 0
  | .str s => s != ""
  | .arr _ => true
  | .obj _ => true

/-- Property lookup on an object field list: first binding for the key. -/
def lookupFields : List (String × JsVal) → String → JsVal
  | [], _ => .undefined
  | (k, v) :: rest, key => if k = key then v else lookupFields rest key

/-- JavaScript property read `v[key]` for the accesses the pages perform
(reading a named field of a parsed message object). -/
def objLookup (v : JsVal) (key : String) : JsVal :=
  match v with
  | .obj fields => lookupFields fields key
  | _ => .undefined

def isStr : JsVal → Bool
  | .str _ => true
  | _ => false

def isArr : JsVal → Bool
  | .arr _ => true
  | _ => false

/-- JavaScript strict equality for the comparisons the display performs
(`mediaData.mediaType === 'video'`, `mediaData.button === selectedButton`).
Primitives compare by value; arrays and objects compare by reference, and
the values compared here always come from distinct parsed messages, so the
reference comparison is modelled as false. -/
def jsStrictEq : JsVal → JsVal → Bool
  | .undefined, .undefined => true
  | .null, .null => true
  | .bool a, .bool b => a == b
  | .num a, .num b => a == b
  | .str a, .str b => a == b
  | _, _ => false

/-- JavaScript indexed read `v[i]`: element of an array, single-character
string for a string, undefined otherwise. -/
def jsIndex (v : JsVal) (i : Nat) : JsVal :=
  match v with
  | .arr elems => elems.getD i .undefined
  | .str s => if i < s.length then .str (String.mk [s.data.getD i ' ']) else .undefined
  | _ => .undefined

/-- String coercion of a value used as a computed object key
(`[mediaData.button]: mediaData`). The messages the pages build always put
a string there; the other coercions are modelled coarsely since no claim
exercises them. -/
def jsKeyString : JsVal → String
  | .str s => s
  | .bool b => if b then "true" else "false"
  | .null => "null"
  | .undefined => "undefined"
  | .num n => toString n
  | .arr _ => ""
  | .obj _ => ""

/-- The two media channels, the `'A' | 'B'` union type of src/lib/mqtt.ts. -/
inductive Button where
  | A
  | B
deriving DecidableEq

def Button.toStr : Button → String
  | .A => "A"
  | .B => "B"

/-- The action union of the MediaControlMessage interface in src/lib/mqtt.ts. -/
inductive MediaControlAction where
  | play
  | pause
  | seek_forward
  | seek_backward
  | zoom_in
  | zoom_out
  | zoom_reset
  | move_up
  | move_down
  | move_left
  | move_right
  | move_reset
  | scroll_stop
  | scroll_speed_up
  | scroll_speed_down
deriving DecidableEq

/-- The MediaControlMessage interface of src/lib/mqtt.ts. -/
structure MediaControlMessage where
  button : Button
  action : MediaControlAction
  value : Option Int
  timestamp : Int

inductive ScrollDirection where
  | down
  | up
deriving DecidableEq

/-- The pan offset `position: { x, y }` of the display (src/unnamed/part_001).
JavaScript numbers are modelled as rationals; every arithmetic step the
reducer performs on them is exact in binary floating point as well except
the zoom division, whose clamping the claims only bound. -/
structure Position where
  x : ℚ
  y : ℚ
deriving DecidableEq

/-- The MediaState interface of the display page src/unnamed/part_001. -/
structure MediaState where
  zoomLevel : ℚ
  isPlaying : Bool
  position : Position
  scrollSpeed : ℚ
  isScrolling : Bool
  scrollDirection : ScrollDirection
deriving DecidableEq

/-- The initial per-button media state of src/unnamed/part_001 (both
buttons start at zoom 1, paused, origin position, scroll speed 50, not
scrolling, scrolling direction down). -/
def initMediaState : MediaState :=
  { zoomLevel := 1
    isPlaying := false
    position := { x := 0, y := 0 }
    scrollSpeed := 50
    isScrolling := false
    scrollDirection := .down }

def initMediaStates : Button → MediaState := fun _ => initMediaState

/-- handleMediaControlMessage of src/unnamed/part_001 (lines 77-186), as a
pure update of the per-button MediaState map. The seek actions only touch
the video element, not the state; the switch mutates only the entry for
`controlData.button` and returns a shallow copy of the map, which as a
function equals the update written here. -/
def handleMediaControlMessage (controlData : MediaControlMessage)
    (prev : Button → MediaState) : Button → MediaState :=
  let button := controlData.button
  let upd (f : MediaState → MediaState) : Button → MediaState :=
    fun b => if b = button then f (prev b) else prev b
  match controlData.action with
  | .play => upd (fun s => { s with isPlaying := true })
  | .pause => upd (fun s => { s with isPlaying := false })
  | .seek_forward => prev
  | .seek_backward => prev
  | .zoom_in => upd (fun s => { s with zoomLevel := min (s.zoomLevel * 1.25) 5 })
  | .zoom_out => upd (fun s => { s with zoomLevel := max (s.zoomLevel / 1.25) 0.1 })
  | .zoom_reset => upd (fun s => { s with zoomLevel := 1 })
  | .move_up => upd (fun s => { s with position := { s.position with y := s.position.y - 50 } })
  | .move_down => upd (fun s => { s with position := { s.position with y := s.position.y + 50 } })
  | .move_left => upd (fun s => { s with position := { s.position with x := s.position.x - 50 } })
  | .move_right => upd (fun s => { s with position := { s.position with x := s.position.x + 50 } })
  | .move_reset => upd (fun s => { s with position := { x := 0, y := 0 } })
  | .scroll_stop => upd (fun s => { s with isScrolling := false })
  | .scroll_speed_up => upd (fun s => { s with scrollSpeed := min (s.scrollSpeed + 10) 200 })
  | .scroll_speed_down => upd (fun s => { s with scrollSpeed := max (s.scrollSpeed - 10) 10 })

/-- Applying a sequence of control messages to the initial media states. -/
def runMediaControl (msgs : List MediaControlMessage) : Button → MediaState :=
  msgs.foldl (fun s m => handleMediaControlMessage m s) initMediaStates

/-- The payload a broker message hands to the `message` event handler; the
client only ever calls its toString, so it is modelled as carrying the
decoded string. -/
structure Buffer where
  data : String

def Buffer.toString (b : Buffer) : String := b.data

/-- Callbacks are identified abstractly; the listener lists only store and
invoke them, never inspect them. -/
abbrev CallbackId := Nat

/-- The `subscribers: Map<string, MessageCallback[]>` field of MQTTClient,
as an association list keyed by topic, in insertion order like a JS Map. -/
def SubMap := List (String × List CallbackId)

/-- Map.get: the listener list bound to a topic, if any. -/
def getTopic : SubMap → String → Option (List CallbackId)
  | [], _ => none
  | (t, cbs) :: rest, topic => if t = topic then some cbs else getTopic rest topic

/-- Map.set: replace the binding for the topic, or append a new one. -/
def setTopic : SubMap → String → List CallbackId → SubMap
  | [], topic, cbs => [(topic, cbs)]
  | (t, old) :: rest, topic, cbs =>
    if t = topic then (t, cbs) :: rest else (t, old) :: setTopic rest topic cbs

/-- A call into the underlying mqtt library that carries a QoS option. -/
inductive LibCall where
  | subscribeCall (topic : String) (qos : Nat)
  | publishCall (topic : String) (message : String) (qos : Nat)
deriving DecidableEq

def qosOf : LibCall → Nat
  | .subscribeCall _ q => q
  | .publishCall _ _ q => q

namespace MQTTClient

/-- subscribe of src/lib/mqtt.ts (lines 146-164), restricted to its effect
on the subscribers map and the library calls it issues once connected: a
topic seen for the first time gets an empty listener list and one
client.subscribe call with the option qos 0; then the callback is
pushed onto the end of the topic's list. -/
def subscribe (m : SubMap) (topic : String) (callback : CallbackId) :
    SubMap × List LibCall :=
  let step : SubMap × List LibCall :=
    if (getTopic m topic).isSome then (m, [])
    else (setTopic m topic [], [.subscribeCall topic 0])
  (setTopic step.1 topic ((getTopic step.1 topic).getD [] ++ [callback]), step.2)

/-- publish of src/lib/mqtt.ts (lines 166-179): one client.publish call
with the option qos 0. -/
def publish (topic : String) (message : String) : List LibCall :=
  [.publishCall topic message 0]

/-- The `message` event handler installed by setupMessageHandler
(src/lib/mqtt.ts lines 134-144): look the topic up in the subscribers map
and invoke each registered callback, in list order, with the message
converted to a string and the topic; with no entry, nothing happens.
The result lists the invocations (callback, message string, topic). -/
def setupMessageHandlerDispatch (m : SubMap) (topic : String) (message : Buffer) :
    List (CallbackId × String × String) :=
  match getTopic m topic with
  | some callbacks => callbacks.map (fun cb => (cb, message.toString, topic))
  | none => []

end MQTTClient

/-- The subscribers map produced by a sequence of subscribe calls
(topic, callback), starting from the empty map. -/
def buildSubMap (ops : List (String × CallbackId)) : SubMap :=
  ops.foldl (fun m op => (MQTTClient.subscribe m op.1 op.2).1) []

/-- The callbacks registered for a topic by a sequence of subscribe calls,
in registration order. -/
def registeredFor (ops : List (String × CallbackId)) (topic : String) :
    List CallbackId :=
  ops.filterMap (fun op => if op.1 = topic then some op.2 else none)

/-- A client-facing operation on the shim, for tracing the library calls a
usage sequence emits. -/
inductive ClientOp where
  | sub (topic : String) (callback : CallbackId)
  | pub (topic : String) (message : String)

/-- Run a sequence of shim operations, collecting the emitted library calls. -/
def runOps (ops : List ClientOp) : SubMap × List LibCall :=
  ops.foldl
    (fun acc op =>
      match op with
      | .sub t cb =>
        let r := MQTTClient.subscribe acc.1 t cb
        (r.1, acc.2 ++ r.2)
      | .pub t msg => (acc.1, acc.2 ++ MQTTClient.publish t msg))
    ([], [])

/-- The MQTTClient fields that govern connect (src/lib/mqtt.ts lines
43-66): whether `this.client` is set, `this.isConnected`, and the guard
`this.connectPromise` holding the identifier of the pending doConnect call,
if any. `inFlight` counts the connection attempts currently running,
incremented when a doConnect starts and decremented when its promise
settles. -/
structure ConnState where
  client : Bool
  isConnected : Bool
  connectPromise : Option Nat
  inFlight : Nat

def initConnState : ConnState :=
  { client := false, isConnected := false, connectPromise := none, inFlight := 0 }

/-- What a connect() call does before any awaiting: return the pending
promise, resolve immediately, or start a fresh doConnect attempt. -/
inductive ConnectAction where
  | awaitPending (id : Nat)
  | resolveImmediate
  | startAttempt (id : Nat)
deriving DecidableEq

namespace MQTTClient

/-- connect of src/lib/mqtt.ts (lines 50-66), as its synchronous decision:
with a connectPromise pending it returns that promise; otherwise, already
connected, it resolves immediately; otherwise it stores a fresh doConnect
promise and awaits it. Starting an attempt also sets `this.client`
(mqtt.connect assigns it synchronously inside connectToBroker). -/
def connect (st : ConnState) (fresh : Nat) : ConnectAction × ConnState :=
  match st.connectPromise with
  | some id => (.awaitPending id, st)
  | none =>
    if st.client && st.isConnected then (.resolveImmediate, st)
    else (.startAttempt fresh,
      { st with connectPromise := some fresh, client := true,
                inFlight := st.inFlight + 1 })

end MQTTClient

/-- Events driving the connect state machine: a connect() call, the pending
doConnect promise settling (the `finally` clears connectPromise; success
has set isConnected in the connect event handler), and the client's
close/offline events clearing isConnected. -/
inductive ConnEvent where
  | call (fresh : Nat)
  | settle (success : Bool)
  | close

def connStep (st : ConnState) : ConnEvent → ConnState
  | .call fresh => (MQTTClient.connect st fresh).2
  | .settle success =>
    match st.connectPromise with
    | some _ =>
      { st with connectPromise := none, inFlight := st.inFlight - 1,
                isConnected := success || st.isConnected }
    | none => st
  | .close => { st with isConnected := false }

def runConn (events : List ConnEvent) : ConnState :=
  events.foldl connStep initConnState

/-- The options object built in doConnect (src/lib/mqtt.ts lines 73-83). -/
structure MqttOptions where
  clientId : String
  clean : Bool
  reconnectPeriod : Nat
  connectTimeout : Nat
  keepalive : Nat
  username : Option String
  password : Option String

/-- One entry of the `configs` array of doConnect. The name, url and
credentials come from the environment and may be undefined. -/
structure BrokerConfig where
  name : Option String
  url : Option String
  options : MqttOptions

namespace MQTTClient

/-- The `configs` array of doConnect (src/lib/mqtt.ts lines 69-85): a
single broker, clean session, reconnectPeriod 0, connectTimeout 10000 ms,
keepalive 60. The generated clientId is a parameter. -/
def configs (name url username password : Option String) (clientId : String) :
    List BrokerConfig :=
  [{ name := name
     url := url
     options :=
       { clientId := clientId
         clean := true
         reconnectPeriod := 0
         connectTimeout := 10000
         keepalive := 60
         username := username
         password := password } }]

end MQTTClient

/-- How one connectToBroker attempt ends: the connect event fires, the
error event fires, or the 10-second timer fires first. -/
inductive BrokerOutcome where
  | connected
  | errored (message : String)
  | timedOut

/-- String interpolation of a possibly-undefined env value. -/
def optStr (o : Option String) : String := o.getD "undefined"

namespace MQTTClient

/-- connectToBroker of src/lib/mqtt.ts (lines 102-132) as its settled
result: resolve on the connect event, reject with the error on the error
event, reject with a Timeout error when the timer fires. -/
def connectToBroker (config : BrokerConfig) (outcome : BrokerOutcome) :
    Except String Unit :=
  match outcome with
  | .connected => .ok ()
  | .errored e => .error e
  | .timedOut => .error ("Timeout: " ++ optStr config.name)

/-- The for-loop of doConnect (src/lib/mqtt.ts lines 87-99): try each
config in order, counting attempts; a caught error continues to the next
config; when every config failed, throw. -/
def doConnectLoop (cfgs : List BrokerConfig)
    (outcome : BrokerConfig → BrokerOutcome) (attempts : Nat) :
    Except String Unit × Nat :=
  match cfgs with
  | [] => (.error "All connection attempts failed", attempts)
  | c :: rest =>
    match connectToBroker c (outcome c) with
    | .ok _ => (.ok (), attempts + 1)
    | .error _ => doConnectLoop rest outcome (attempts + 1)

/-- doConnect of src/lib/mqtt.ts (lines 68-100): run the loop over the
configs array; the second component counts the connection attempts made. -/
def doConnect (name url username password : Option String) (clientId : String)
    (outcome : BrokerConfig → BrokerOutcome) : Except String Unit × Nat :=
  doConnectLoop (configs name url username password clientId) outcome 0

end MQTTClient

/-- Decode the button field of a parsed message when it names a real
channel. -/
def decodeButton : JsVal → Option Button
  | .str s => if s = "A" then some .A else if s = "B" then some .B else none
  | _ => none

/-- Decode an action string of the MediaControlMessage union. -/
def decodeAction (v : JsVal) : Option MediaControlAction :=
  match v with
  | .str s =>
    if s = "play" then some .play
    else if s = "pause" then some .pause
    else if s = "seek_forward" then some .seek_forward
    else if s = "seek_backward" then some .seek_backward
    else if s = "zoom_in" then some .zoom_in
    else if s = "zoom_out" then some .zoom_out
    else if s = "zoom_reset" then some .zoom_reset
    else if s = "move_up" then some .move_up
    else if s = "move_down" then some .move_down
    else if s = "move_left" then some .move_left
    else if s = "move_right" then some .move_right
    else if s = "move_reset" then some .move_reset
    else if s = "scroll_stop" then some .scroll_stop
    else if s = "scroll_speed_up" then some .scroll_speed_up
    else if s = "scroll_speed_down" then some .scroll_speed_down
    else none
  | _ => none

/-- Decode a parsed mediaControl payload into a typed MediaControlMessage.
A payload whose button is not a channel name or whose action is not in the
union falls outside every claim; the switch matches no case for an unknown
action and the state copy it returns equals the previous state, which is
how the `none` result is consumed below. -/
def decodeMediaControl (data : JsVal) : Option MediaControlMessage :=
  match decodeButton (objLookup data "button"),
        decodeAction (objLookup data "action") with
  | some b, some a =>
    some
      { button := b
        action := a
        value := match objLookup data "value" with | .num n => some n | _ => none
        timestamp := match objLookup data "timestamp" with | .num n => n | _ => 0 }
  | _, _ => none

/-- The display state of src/unnamed/part_000 that its handleMQTTMessage
touches: the button-to-media map (keyed by the stringified button field),
the active button value, and the status line. -/
structure DisplayState0 where
  buttonMedia : String → Option JsVal
  selectedButton : JsVal
  status : String

/-- handleMQTTMessage of src/unnamed/part_000 (lines 11-30). The `parsed`
argument is the result of JSON.parse on the raw message: none when parsing
threw, in which case the catch only logs. On the buttonControl topic the
activeButton field is stored; on any other (button) topic the message is
stored under its button key when button, fileContent and fileType are all
truthy, and otherwise nothing happens. -/
def handleMQTTMessage0 (st : DisplayState0) (parsed : Option JsVal)
    (topic : String) : DisplayState0 :=
  match parsed with
  | none => st
  | some data =>
    if topic = "home/buttonControl" then
      { st with selectedButton := objLookup data "activeButton" }
    else
      let btn := objLookup data "button"
      if truthy btn && truthy (objLookup data "fileContent")
          && truthy (objLookup data "fileType") then
        { st with
            buttonMedia := fun k =>
              if k = jsKeyString btn then some data else st.buttonMedia k
            status := "Connected - Media loaded" }
      else st

/-- The display state of src/unnamed/part_001 that its handleMQTTMessage
touches: as in part_000, plus the per-button MediaState map. -/
structure DisplayState1 where
  buttonMedia : String → Option JsVal
  selectedButton : JsVal
  mediaState : Button → MediaState
  status : String

/-- handleMQTTMessage of src/unnamed/part_001 (lines 30-75). Like
part_000's handler, with two more behaviours: a mediaControl topic message
is fed to handleMediaControlMessage, and a stored media message that is a
video (resp. image) for the currently selected button also sets that
button's isPlaying (resp. isScrolling and scrollDirection). -/
def handleMQTTMessage1 (st : DisplayState1) (parsed : Option JsVal)
    (topic : String) : DisplayState1 :=
  match parsed with
  | none => st
  | some data =>
    if topic = "home/buttonControl" then
      { st with selectedButton := objLookup data "activeButton" }
    else if topic = "home/mediaControl" then
      match decodeMediaControl data with
      | some m => { st with mediaState := handleMediaControlMessage m st.mediaState }
      | none => st
    else
      let btn := objLookup data "button"
      if truthy btn && truthy (objLookup data "fileContent")
          && truthy (objLookup data "fileType") then
        let st1 : DisplayState1 :=
          { st with
              buttonMedia := fun k =>
                if k = jsKeyString btn then some data else st.buttonMedia k
              status := "Connected - Media loaded" }
        let st2 : DisplayState1 :=
          if jsStrictEq (objLookup data "mediaType") (.str "video")
              && jsStrictEq btn st.selectedButton then
            match decodeButton btn with
            | some b =>
              { st1 with
                  mediaState := fun x =>
                    if x = b then { st1.mediaState x with isPlaying := true }
                    else st1.mediaState x }
            | none => st1
          else st1
        if jsStrictEq (objLookup data "mediaType") (.str "image")
            && jsStrictEq btn st.selectedButton then
          match decodeButton btn with
          | some b =>
            { st2 with
                mediaState := fun x =>
                  if x = b then
                    { st2.mediaState x with isScrolling := true,
                                            scrollDirection := .down }
                  else st2.mediaState x }
          | none => st2
        else st2
      else st

/-- The currentDisplay effect shared by both display pages (src/unnamed/
part_000 lines 59-65 and src/unnamed/part_001 lines 274-297): when the
button-to-media map has an entry for the selected button, display it,
otherwise display nothing (the waiting screen). -/
def computeCurrentDisplay (buttonMedia : String → Option JsVal)
    (selectedButton : Button) : Option JsVal :=
  match buttonMedia selectedButton.toStr with
  | some m => some m
  | none => none

/-- The FileMessage interface of src/lib/mqtt.ts (lines 3-12): fileName and
fileContent are declared as string arrays. -/
structure FileMessage where
  button : Button
  fileName : List String
  fileContent : List String
  fileType : String
  mediaType : String
  timestamp : Int
  isLocalFile : Option Bool
  filePath : Option String

/-- JSON.stringify of a FileMessage value: undefined optional fields are
omitted. -/
def fileMessageToJsVal (fm : FileMessage) : JsVal :=
  .obj
    ([("button", .str fm.button.toStr),
      ("fileName", .arr (fm.fileName.map .str)),
      ("fileContent", .arr (fm.fileContent.map .str)),
      ("fileType", .str fm.fileType),
      ("mediaType", .str fm.mediaType),
      ("timestamp", .num fm.timestamp)]
     ++ (match fm.isLocalFile with
         | some b => [("isLocalFile", JsVal.bool b)]
         | none => [])
     ++ (match fm.filePath with
         | some p => [("filePath", JsVal.str p)]
         | none => []))

/-- The expression mediaUrl.split, pop, or-default in handleMediaUpload of
src/pages/remote.tsx line 102: the last slash-separated segment of the
URL, or the string media when that segment is empty. -/
def fileNameOfUrl (mediaUrl : String) : String :=
  let last := (mediaUrl.splitOn "/").getLastD ""
  if last = "" then "media" else last

/-- The message object built by handleMediaUpload of src/pages/remote.tsx
(lines 100-107): fileName and fileContent are single strings, not arrays,
despite the FileMessage annotation on the literal. -/
def handleMediaUploadMessage (mediaUrl processedUrl fileType mediaType : String)
    (button : Button) (timestamp : Int) : JsVal :=
  .obj
    [("button", .str button.toStr),
     ("fileName", .str (fileNameOfUrl mediaUrl)),
     ("fileContent", .str processedUrl),
     ("fileType", .str fileType),
     ("mediaType", .str mediaType),
     ("timestamp", .num timestamp)]

/-- The message object built by handleFileUpload of src/unnamed/part_002
(lines 101-110): fileName and fileContent are string arrays, fileType is
the first file's type, isLocalFile is true, filePath joins the names with
commas. -/
def handleFileUploadMessage (fileNames fileContents : List String)
    (fileType mediaType : String) (button : Button) (timestamp : Int) : JsVal :=
  .obj
    [("button", .str button.toStr),
     ("fileName", .arr (fileNames.map .str)),
     ("fileContent", .arr (fileContents.map .str)),
     ("fileType", .str fileType),
     ("mediaType", .str mediaType),
     ("timestamp", .num timestamp),
     ("isLocalFile", .bool true),
     ("filePath", .str (String.intercalate "," fileNames))]

/-! Helper lemmas about the media-control reducer. -/

theorem handleMediaControlMessage_other (m : MediaControlMessage)
    (s : Button → MediaState) (b : Button) (h : b ≠ m.button) :
    handleMediaControlMessage m s b = s b := by
  rcases m with ⟨mb, ma, mv, mt⟩
  simp only at h
  cases ma <;> simp [handleMediaControlMessage, h]

theorem zoomLevel_bounds_step (m : MediaControlMessage)
    (s : Button → MediaState)
    (h : ∀ b, 0.1 ≤ (s b).zoomLevel ∧ (s b).zoomLevel ≤ 5) :
    ∀ b, 0.1 ≤ (handleMediaControlMessage m s b).zoomLevel ∧
      (handleMediaControlMessage m s b).zoomLevel ≤ 5 := by
  intro b
  rcases m with ⟨mb, ma, mv, mt⟩
  by_cases hb : b = mb
  · subst hb
    obtain ⟨h1, h2⟩ := h b
    cases ma <;> simp [handleMediaControlMessage] <;>
      first
        | exact ⟨h1, h2⟩
        | exact (div_le_self (le_trans (by norm_num) h1) (by norm_num)).trans h2
        | (norm_num at h1 h2 ⊢; all_goals constructor <;> linarith)
        | (norm_num at h1 h2 ⊢; all_goals linarith)
  · rw [handleMediaControlMessage_other _ _ _ (by simpa using hb)]
    exact h b

theorem zoomLevel_bounds_run (msgs : List MediaControlMessage)
    (s : Button → MediaState)
    (h : ∀ b, 0.1 ≤ (s b).zoomLevel ∧ (s b).zoomLevel ≤ 5) :
    ∀ b, 0.1 ≤ ((msgs.foldl (fun t m => handleMediaControlMessage m t) s) b).zoomLevel ∧
      ((msgs.foldl (fun t m => handleMediaControlMessage m t) s) b).zoomLevel ≤ 5 := by
  induction msgs generalizing s with
  | nil => exact h
  | cons m rest ih => exact ih _ (zoomLevel_bounds_step m s h)

theorem scrollSpeed_bounds_step (m : MediaControlMessage)
    (s : Button → MediaState)
    (h : ∀ b, 10 ≤ (s b).scrollSpeed ∧ (s b).scrollSpeed ≤ 200) :
    ∀ b, 10 ≤ (handleMediaControlMessage m s b).scrollSpeed ∧
      (handleMediaControlMessage m s b).scrollSpeed ≤ 200 := by
  intro b
  rcases m with ⟨mb, ma, mv, mt⟩
  by_cases hb : b = mb
  · subst hb
    obtain ⟨h1, h2⟩ := h b
    cases ma <;> simp [handleMediaControlMessage] <;>
      first
        | exact ⟨h1, h2⟩
        | (norm_num at h1 h2 ⊢; all_goals constructor <;> linarith)
        | (norm_num at h1 h2 ⊢; all_goals linarith)
  · rw [handleMediaControlMessage_other _ _ _ (by simpa using hb)]
    exact h b

theorem scrollSpeed_bounds_run (msgs : List MediaControlMessage)
    (s : Button → MediaState)
    (h : ∀ b, 10 ≤ (s b).scrollSpeed ∧ (s b).scrollSpeed ≤ 200) :
    ∀ b, 10 ≤ ((msgs.foldl (fun t m => handleMediaControlMessage m t) s) b).scrollSpeed ∧
      ((msgs.foldl (fun t m => handleMediaControlMessage m t) s) b).scrollSpeed ≤ 200 := by
  induction msgs generalizing s with
  | nil => exact h
  | cons m rest ih => exact ih _ (scrollSpeed_bounds_step m s h)

/-- C3: starting from the initial zoomLevel 1, every sequence of control
messages keeps each button's zoomLevel within the interval from 0.1 to 5;
zoom_in sets it to the minimum of 1.25 times the old level and 5, zoom_out
to the maximum of the old level divided by 1.25 and 0.1, and zoom_reset to
exactly 1. -/
theorem zoom_level_clamped :
    (∀ b, (initMediaStates b).zoomLevel = 1)
    ∧ (∀ (msgs : List MediaControlMessage) (b : Button),
        0.1 ≤ (runMediaControl msgs b).zoomLevel ∧ (runMediaControl msgs b).zoomLevel ≤ 5)
    ∧ (∀ (b : Button) (v : Option Int) (ts : Int) (s : Button → MediaState),
        (handleMediaControlMessage ⟨b, .zoom_in, v, ts⟩ s b).zoomLevel
          = min ((s b).zoomLevel * 1.25) 5)
    ∧ (∀ (b : Button) (v : Option Int) (ts : Int) (s : Button → MediaState),
        (handleMediaControlMessage ⟨b, .zoom_out, v, ts⟩ s b).zoomLevel
          = max ((s b).zoomLevel / 1.25) 0.1)
    ∧ (∀ (b : Button) (v : Option Int) (ts : Int) (s : Button → MediaState),
        (handleMediaControlMessage ⟨b, .zoom_reset, v, ts⟩ s b).zoomLevel = 1) := by
  refine ⟨fun b => rfl, fun msgs b => ?_, ?_, ?_, ?_⟩
  · exact zoomLevel_bounds_run msgs initMediaStates
      (fun b => by simp [initMediaStates, initMediaState]; norm_num) b
  · intro b v ts s
    simp [handleMediaControlMessage]
  · intro b v ts s
    simp [handleMediaControlMessage]
  · intro b v ts s
    simp [handleMediaControlMessage]

/-- C4: starting from the initial scrollSpeed 50, every sequence of control
messages keeps each button's scrollSpeed within the interval from 10 to
200; scroll_speed_up sets it to the minimum of the old speed plus 10 and
200, scroll_speed_down to the maximum of the old speed minus 10 and 10. -/
theorem scroll_speed_clamped :
    (∀ b, (initMediaStates b).scrollSpeed = 50)
    ∧ (∀ (msgs : List MediaControlMessage) (b : Button),
        10 ≤ (runMediaControl msgs b).scrollSpeed ∧ (runMediaControl msgs b).scrollSpeed ≤ 200)
    ∧ (∀ (b : Button) (v : Option Int) (ts : Int) (s : Button → MediaState),
        (handleMediaControlMessage ⟨b, .scroll_speed_up, v, ts⟩ s b).scrollSpeed
          = min ((s b).scrollSpeed + 10) 200)
    ∧ (∀ (b : Button) (v : Option Int) (ts : Int) (s : Button → MediaState),
        (handleMediaControlMessage ⟨b, .scroll_speed_down, v, ts⟩ s b).scrollSpeed
          = max ((s b).scrollSpeed - 10) 10) := by
  refine ⟨fun b => rfl, fun msgs b => ?_, ?_, ?_⟩
  · exact scrollSpeed_bounds_run msgs initMediaStates
      (fun b => by simp [initMediaStates, initMediaState]; norm_num) b
  · intro b v ts s
    simp [handleMediaControlMessage]
  · intro b v ts s
    simp [handleMediaControlMessage]

/-- C5: a media-control message addressed to one button leaves the full
MediaState of the other button unchanged. -/
theorem media_control_frame :
    ∀ (a : MediaControlAction) (v : Option Int) (ts : Int)
      (s : Button → MediaState),
      handleMediaControlMessage ⟨.A, a, v, ts⟩ s .B = s .B
      ∧ handleMediaControlMessage ⟨.B, a, v, ts⟩ s .A = s .A := by
  intro a v ts s
  constructor
  · exact handleMediaControlMessage_other _ _ _ (by simp)
  · exact handleMediaControlMessage_other _ _ _ (by simp)

/-! Helper lemmas about the subscribers map. -/

theorem getTopic_setTopic (m : SubMap) (topic : String) (cbs : List CallbackId)
    (t2 : String) :
    getTopic (setTopic m topic cbs) t2
      = if topic = t2 then some cbs else getTopic m t2 := by
  induction m with
  | nil =>
    by_cases ht : topic = t2 <;> simp [setTopic, getTopic, ht]
  | cons p rest ih =>
    obtain ⟨t, old⟩ := p
    by_cases h1 : t = topic
    · subst h1
      by_cases ht : t = t2 <;> simp [setTopic, getTopic, ht]
    · by_cases ht : t = t2
      · have hne : ¬ topic = t2 := fun hh => h1 (ht.trans hh.symm)
        have hne2 : ¬ t2 = topic := fun hh => hne hh.symm
        simp [setTopic, getTopic, h1, ht, hne, hne2]
      · simp [setTopic, getTopic, h1, ht, ih]

theorem getTopic_subscribe (m : SubMap) (topic : String) (cb : CallbackId)
    (t2 : String) :
    getTopic (MQTTClient.subscribe m topic cb).1 t2
      = if topic = t2 then some ((getTopic m t2).getD [] ++ [cb])
        else getTopic m t2 := by
  cases hg : getTopic m topic with
  | some l =>
    by_cases ht : topic = t2
    · subst ht
      simp [MQTTClient.subscribe, hg, getTopic_setTopic]
    · simp [MQTTClient.subscribe, hg, getTopic_setTopic, ht]
  | none =>
    by_cases ht : topic = t2
    · subst ht
      simp [MQTTClient.subscribe, hg, getTopic_setTopic]
    · simp [MQTTClient.subscribe, hg, getTopic_setTopic, ht]

theorem dispatch_eq_getD (m : SubMap) (topic : String) (message : Buffer) :
    MQTTClient.setupMessageHandlerDispatch m topic message
      = ((getTopic m topic).getD []).map (fun cb => (cb, message.toString, topic)) := by
  unfold MQTTClient.setupMessageHandlerDispatch
  cases getTopic m topic <;> simp

theorem getD_buildSubMap_aux (ops : List (String × CallbackId)) (m : SubMap)
    (topic : String) :
    ((getTopic (ops.foldl (fun acc op => (MQTTClient.subscribe acc op.1 op.2).1) m)
        topic).getD [])
      = (getTopic m topic).getD [] ++ registeredFor ops topic := by
  induction ops generalizing m with
  | nil => simp [registeredFor]
  | cons op rest ih =>
    obtain ⟨t, cb⟩ := op
    simp only [List.foldl_cons]
    rw [ih]
    by_cases ht : t = topic
    · subst ht
      simp [registeredFor, getTopic_subscribe, List.filterMap_cons]
    · simp [registeredFor, getTopic_subscribe, ht, List.filterMap_cons]

/-- C1: an incoming broker message on a topic is delivered, converted to a
string and paired with the topic, to exactly the callbacks registered for
that topic, in registration order; with no callback registered for the
topic the dispatch list is empty. -/
theorem message_multiplex :
    ∀ (ops : List (String × CallbackId)) (topic : String) (message : Buffer),
      MQTTClient.setupMessageHandlerDispatch (buildSubMap ops) topic message
        = (registeredFor ops topic).map (fun cb => (cb, message.toString, topic)) := by
  intro ops topic message
  rw [dispatch_eq_getD, buildSubMap, getD_buildSubMap_aux]
  simp [getTopic]

/-! Helper lemmas about the connect guard. -/

/-- The guard invariant: the in-flight attempt count is one exactly when a
connectPromise is stored, zero otherwise. -/
def connGuard (st : ConnState) : Prop :=
  st.inFlight = match st.connectPromise with
    | some _ => 1
    | none => 0

theorem connGuard_init : connGuard initConnState := by
  simp [connGuard, initConnState]

theorem connGuard_step (st : ConnState) (e : ConnEvent) (h : connGuard st) :
    connGuard (connStep st e) := by
  cases e with
  | call fresh =>
    unfold connStep MQTTClient.connect
    cases hcp : st.connectPromise with
    | some id => simpa [connGuard, hcp] using h
    | none =>
      by_cases hc : st.client && st.isConnected
      · simpa [hcp, hc, connGuard] using h
      · unfold connGuard at h
        rw [hcp] at h
        simp [hcp, hc, connGuard, h]
  | settle success =>
    cases hcp : st.connectPromise with
    | some id =>
      unfold connGuard at h
      rw [hcp] at h
      simp [connStep, hcp, connGuard, h]
    | none => simpa [connStep, hcp, connGuard, hcp] using h
  | close => simpa [connStep, connGuard] using h

theorem connGuard_run (events : List ConnEvent) : connGuard (runConn events) := by
  rw [runConn]
  have : ∀ st, connGuard st → connGuard (events.foldl connStep st) := by
    induction events with
    | nil => exact fun st h => h
    | cons e rest ih => exact fun st h => ih _ (connGuard_step st e h)
  exact this _ connGuard_init

/-- C2: the connect guard admits at most one attempt in flight: a connect()
call finding a pending connectPromise returns that same promise and changes
nothing, a call finding the client connected with no pending promise
resolves immediately and changes nothing, and along every event sequence
the number of in-flight attempts never exceeds one. -/
theorem connect_single_flight :
    (∀ (st : ConnState) (pending fresh : Nat),
      MQTTClient.connect { st with connectPromise := some pending } fresh
        = (.awaitPending pending, { st with connectPromise := some pending }))
    ∧ (∀ (st : ConnState) (fresh : Nat),
      MQTTClient.connect
          { st with client := true, isConnected := true, connectPromise := none } fresh
        = (.resolveImmediate,
           { st with client := true, isConnected := true, connectPromise := none }))
    ∧ (∀ events : List ConnEvent, (runConn events).inFlight ≤ 1) := by
  refine ⟨fun st pending fresh => rfl, fun st fresh => rfl, fun events => ?_⟩
  have h := connGuard_run events
  unfold connGuard at h
  cases hcp : (runConn events).connectPromise <;> simp [hcp] at h <;> omega

/-- C7: the connection shim tries the single configured broker exactly once
with reconnectPeriod 0 and a 10000 ms connect timeout; whether the attempt
ends in a connect error or in the timeout, doConnect makes one attempt and
rejects with the error message about all connection attempts failing. -/
theorem single_attempt_no_retry :
    ∀ (name url username password : Option String) (clientId : String),
      (MQTTClient.configs name url username password clientId).length = 1
      ∧ ((MQTTClient.configs name url username password clientId).map
          (fun c => c.options.reconnectPeriod)) = [0]
      ∧ ((MQTTClient.configs name url username password clientId).map
          (fun c => c.options.connectTimeout)) = [10000]
      ∧ (∀ e : String,
          MQTTClient.doConnect name url username password clientId
            (fun _ => .errored e)
          = (.error "All connection attempts failed", 1))
      ∧ MQTTClient.doConnect name url username password clientId
            (fun _ => .timedOut)
          = (.error "All connection attempts failed", 1)
      ∧ MQTTClient.doConnect name url username password clientId
            (fun _ => .connected)
          = (.ok (), 1) := by
  intro name url username password clientId
  refine ⟨rfl, rfl, rfl, fun e => ?_, ?_, ?_⟩
  · rfl
  · rfl
  · rfl

/-! Helper lemmas about the QoS of emitted library calls. -/

theorem subscribe_calls_qos (m : SubMap) (topic : String) (cb : CallbackId) :
    ((MQTTClient.subscribe m topic cb).2.all (fun c => qosOf c == 0)) = true := by
  unfold MQTTClient.subscribe
  by_cases hs : (getTopic m topic).isSome <;> simp [hs, qosOf]

theorem runOps_qos_aux (ops : List ClientOp) (m : SubMap) (acc : List LibCall)
    (h : (acc.all (fun c => qosOf c == 0)) = true) :
    (((ops.foldl
        (fun acc op =>
          match op with
          | .sub t cb =>
            let r := MQTTClient.subscribe acc.1 t cb
            (r.1, acc.2 ++ r.2)
          | .pub t msg => (acc.1, acc.2 ++ MQTTClient.publish t msg))
        (m, acc)).2.all (fun c => qosOf c == 0))) = true := by
  induction ops generalizing m acc with
  | nil => exact h
  | cons op rest ih =>
    cases op with
    | sub t cb =>
      simp only [List.foldl_cons]
      refine ih _ _ ?_
      rw [List.all_append, h, Bool.true_and]
      exact subscribe_calls_qos _ _ _
    | pub t msg =>
      simp only [List.foldl_cons]
      refine ih _ _ ?_
      rw [List.all_append, h, Bool.true_and]
      simp [MQTTClient.publish, qosOf]

/-- C8: every library call a sequence of subscribe and publish operations
emits carries the option qos 0. -/
theorem all_calls_qos_zero :
    ∀ ops : List ClientOp, ((runOps ops).2.all (fun c => qosOf c == 0)) = true := by
  intro ops
  exact runOps_qos_aux ops [] [] rfl

/-- C6: the display shows the media item assigned to the active button:
when the button-to-media map has an entry for the active button the
displayed item is that entry, and when it has none the display is empty
(the waiting screen). -/
theorem display_shows_active_button :
    ∀ (buttonMedia : String → Option JsVal) (b : Button) (m : JsVal),
      (buttonMedia b.toStr = some m → computeCurrentDisplay buttonMedia b = some m)
      ∧ (buttonMedia b.toStr = none → computeCurrentDisplay buttonMedia b = none) := by
  intro bm b m
  constructor <;> intro h <;> simp [computeCurrentDisplay, h]

/-- Witness for C6 at a concrete map: button A carries an item and is
displayed, button B carries nothing and the display is empty. -/
theorem display_shows_active_button_witness :
    computeCurrentDisplay
        (fun k => if k = "A" then some (JsVal.str "pic") else none) Button.A
      = some (JsVal.str "pic")
    ∧ computeCurrentDisplay
        (fun k => if k = "A" then some (JsVal.str "pic") else none) Button.B
      = none := by
  constructor
  · exact (display_shows_active_button
      (fun k => if k = "A" then some (JsVal.str "pic") else none)
      Button.A (JsVal.str "pic")).1 rfl
  · exact (display_shows_active_button
      (fun k => if k = "A" then some (JsVal.str "pic") else none)
      Button.B (JsVal.str "pic")).2 rfl

/-- C9: the URL remote builds fileName and fileContent as single strings,
while the FileMessage interface and the file-upload remote make them
string arrays, read by the display as fileContent[0]; a string value is
never an array value, so the two payload shapes are not interchangeable. -/
theorem payload_shape_mismatch :
    (∀ (mediaUrl processedUrl fileType mediaType : String) (b : Button) (ts : Int),
      isStr (objLookup
        (handleMediaUploadMessage mediaUrl processedUrl fileType mediaType b ts)
        "fileContent") = true
      ∧ isStr (objLookup
          (handleMediaUploadMessage mediaUrl processedUrl fileType mediaType b ts)
          "fileName") = true)
    ∧ (∀ (fileNames fileContents : List String) (fileType mediaType : String)
        (b : Button) (ts : Int),
      isArr (objLookup
        (handleFileUploadMessage fileNames fileContents fileType mediaType b ts)
        "fileContent") = true
      ∧ isArr (objLookup
          (handleFileUploadMessage fileNames fileContents fileType mediaType b ts)
          "fileName") = true)
    ∧ (∀ fm : FileMessage,
        isArr (objLookup (fileMessageToJsVal fm) "fileContent") = true
        ∧ isArr (objLookup (fileMessageToJsVal fm) "fileName") = true)
    ∧ (∀ (c : String) (cs fileNames : List String) (fileType mediaType : String)
        (b : Button) (ts : Int),
        jsIndex (objLookup
          (handleFileUploadMessage fileNames (c :: cs) fileType mediaType b ts)
          "fileContent") 0 = .str c)
    ∧ (∀ v : JsVal, (isStr v && isArr v) = false) := by
  refine ⟨?_, ?_, ?_, ?_, ?_⟩
  · intro mediaUrl processedUrl fileType mediaType b ts
    constructor <;> simp [handleMediaUploadMessage, objLookup, lookupFields, isStr]
  · intro fileNames fileContents fileType mediaType b ts
    constructor <;> simp [handleFileUploadMessage, objLookup, lookupFields, isArr]
  · intro fm
    constructor <;> simp [fileMessageToJsVal, objLookup, lookupFields, isArr]
  · intro c cs fileNames fileType mediaType b ts
    simp [handleFileUploadMessage, objLookup, lookupFields, jsIndex]
  · intro v
    cases v <;> rfl

/-- C10: the display handlers are atomic on bad input: a message that is
not valid JSON leaves the state untouched in both display pages, and a
parsed media message on a button topic with a falsy button, fileContent or
fileType field leaves the state untouched as well. -/
theorem handler_atomic_on_bad_input :
    (∀ (st : DisplayState1) (topic : String),
      handleMQTTMessage1 st none topic = st)
    ∧ (∀ (st : DisplayState0) (topic : String),
      handleMQTTMessage0 st none topic = st)
    ∧ (∀ (st : DisplayState1) (topic : String) (data : JsVal),
      topic ≠ "home/buttonControl" → topic ≠ "home/mediaControl" →
      (truthy (objLookup data "button") && truthy (objLookup data "fileContent")
        && truthy (objLookup data "fileType")) = false →
      handleMQTTMessage1 st (some data) topic = st)
    ∧ (∀ (st : DisplayState0) (topic : String) (data : JsVal),
      topic ≠ "home/buttonControl" →
      (truthy (objLookup data "button") && truthy (objLookup data "fileContent")
        && truthy (objLookup data "fileType")) = false →
      handleMQTTMessage0 st (some data) topic = st) := by
  refine ⟨fun st topic => rfl, fun st topic => rfl, ?_, ?_⟩
  · intro st topic data h1 h2 h3
    simp [handleMQTTMessage1, h1, h2, h3]
  · intro st topic data h1 h3
    simp [handleMQTTMessage0, h1, h3]

/-- Witness for C10 at a concrete bad input: the empty JSON object arriving
on the buttonA topic (all three required fields undefined, hence falsy)
changes neither display page's state. -/
theorem handler_atomic_on_bad_input_witness :
    handleMQTTMessage1
        { buttonMedia := fun _ => none, selectedButton := JsVal.str "A",
          mediaState := initMediaStates, status := "Connecting to MQTT..." }
        (some (JsVal.obj [])) "home/buttonA"
      = { buttonMedia := fun _ => none, selectedButton := JsVal.str "A",
          mediaState := initMediaStates, status := "Connecting to MQTT..." }
    ∧ handleMQTTMessage0
        { buttonMedia := fun _ => none, selectedButton := JsVal.str "A",
          status := "Connecting to MQTT..." }
        (some (JsVal.obj [])) "home/buttonA"
      = { buttonMedia := fun _ => none, selectedButton := JsVal.str "A",
          status := "Connecting to MQTT..." } := by
  constructor
  · exact handler_atomic_on_bad_input.2.2.1 _ "home/buttonA" (JsVal.obj [])
      (by decide) (by decide) (by decide)
  · exact handler_atomic_on_bad_input.2.2.2 _ "home/buttonA" (JsVal.obj [])
      (by decide) (by decide)

end MqttNextjs
